import Mathlib

/-!
Verification of the grade ingestion and aggregation pipeline of the
batch_grades_processing repository.

The Python sources are embedded shallowly:

* numeric values (pandas / SQLAlchemy `Float` columns) are modelled as `ℚ`;
  nullable columns as `Option ℚ`;
* the SQLite database is modelled as explicit lists of rows
  (`Student`, `Course`, `GradeSnapshot` counterpart, `StudentGrade`);
* `datetime.now()` timestamps are modelled as an abstract `ℕ` tick that is
  passed in explicitly;
* string helpers (`str.lower`, substring containment, `str.startswith`,
  `str.strip`) are re-implemented over `List Char` so that they evaluate
  inside the kernel.
-/

namespace BatchGrades

/-! ### String helpers (Python `lower` / `in` / `startswith` / `strip`) -/

/-- Does `p` occur at the very start of `c`? (Python `startswith` on char lists.) -/
def segStartsAt : List Char → List Char → Bool
  | [], _ => true
  | _ :: _, [] => false
  | p :: ps, c :: cs => p == c && segStartsAt ps cs

/-- Does `pat` occur as a contiguous segment of the second list?
(Python `pat in s` substring test.) -/
def hasSeg : List Char → List Char → Bool
  | pat, [] => pat.isEmpty
  | pat, c :: cs => segStartsAt pat (c :: cs) || hasSeg pat cs

/-- Python `s.lower()`. -/
def strToLower (s : String) : String := ⟨s.data.map Char.toLower⟩

/-- Python `pat in s` (substring containment). -/
def strContains (s pat : String) : Bool := hasSeg pat.toList s.toList

/-- Python `s.startswith(pat)`. -/
def strStartsWith (s pat : String) : Bool := segStartsAt pat.toList s.toList

/-- Python `s.strip()`: drop whitespace from both ends. -/
def strStrip (s : String) : String :=
  ⟨((s.data.dropWhile Char.isWhitespace).reverse.dropWhile Char.isWhitespace).reverse⟩

/-! ### Aggregation arithmetic
(`LabGradesScraper.parse_data_from_grades_csv`, lab_scraping.py lines 216-224, and
`LectureGradesScraper.parse_data_from_grades_csv`, lecture_scraping.py lines 227-244.) -/

/-- Round-half-to-even of a rational to an integer, as `numpy.round` /
Python 3 `round` do for the `round(ratio, 6)` call in
lecture_scraping.py line 239. -/
def roundHalfToEven (q : ℚ) : ℤ :=
  let f : ℤ := ⌊q⌋
  let r : ℚ := q - f
  if r < 1 / 2 then f
  else if 1 / 2 < r then f + 1
  else if f % 2 = 0 then f else f + 1

/-- Python `round(q, 6)`: round to six decimal places. -/
def roundTo6 (q : ℚ) : ℚ := (roundHalfToEven (q * 1000000) : ℚ) / 1000000

/-- `df['lab_average'] = 100 * (df['lab_numerator'] / df['lab_denominator'])`
(lab_scraping.py lines 222-224); no rounding, no clamping. -/
def labAverage (num denom : ℚ) : ℚ := 100 * (num / denom)

/-- `df['quizzes_average'] = 100 * (df['quizzes_numerator'] / df['quizzes_denominator'])`
(lecture_scraping.py lines 242-244); no rounding. -/
def quizzesAverage (num denom : ℚ) : ℚ := 100 * (num / denom)

/-- `df['exit_tickets_average'] = 100 * round(num / denom, 6)`
(lecture_scraping.py lines 237-240): the ratio is rounded to 6 decimal
places before scaling by 100. -/
def exitTicketsAverage (num denom : ℚ) : ℚ := 100 * roundTo6 (num / denom)

/-! ### Zero-denominator mode substitution
(lab_scraping.py lines 216-219; lecture_scraping.py lines 227-234.)

`pandas.Series.mode()` returns the values of maximal multiplicity in the
column, sorted ascending; the code takes `mode_series[0]`, i.e. the
smallest value of maximal multiplicity, and replaces every `0` of the
column by it. Note the mode is taken over the whole column, zeros
included. -/

/-- The values of a column that attain the maximal multiplicity
(the content of `df[col].mode()`). -/
def modeCandidates (col : List ℚ) : List ℚ :=
  col.filter (fun v => col.all (fun w => col.count w ≤ col.count v))

/-- `float(df[col].mode()[0])`: the smallest value of maximal multiplicity.
On the empty column pandas would raise a lookup error; we return 0 as a
junk value (the scraped tables are never empty). -/
def pandasModeHead (col : List ℚ) : ℚ :=
  match (modeCandidates col).min? with
  | some m => m
  | none => 0

/-- `df[col] = df[col].replace(0, denom_mode)` with
`denom_mode = float(df[col].mode()[0])`. -/
def substituteZeros (col : List ℚ) : List ℚ :=
  col.map (fun x => if x = 0 then pandasModeHead col else x)

/-- Modelled from the spec: §4.3 zero-denominator policy as the spec words it —
replace every zero by the most frequent NON-ZERO value of the column
(smallest such value on ties, mirroring the pandas tie-break). -/
def specSubstituteZeros (col : List ℚ) : List ℚ :=
  let nz := col.filter (fun v => v ≠ 0)
  col.map (fun x => if x = 0 then pandasModeHead nz else x)

/-! ### Default semester code (`get_current_semester`, models.py lines 10-15).
`datetime.now()` is modelled by passing year/month/day explicitly. -/

/-- The two-digit term code chosen by `get_current_semester`. -/
def termCode (month day : ℕ) : String :=
  if month < 5 then "10"
  else if month > 7 ∧ day > 15 then "80"
  else "50"

/-- `get_current_semester()` (models.py lines 10-15): current year concatenated
with the term code. -/
def get_current_semester (year month day : ℕ) : String :=
  toString year ++ termCode month day

/-! ### Column resolution
(`LabGradesScraper.parse_data_from_grades_csv`, lab_scraping.py lines 168-204.)

The loop walks the dataframe's columns once, keeping `-1` sentinels, and
re-assigns an index every time a predicate matches (a later match
overwrites an earlier one). The assignments for the name columns are
taken verbatim from the source: a header containing "last" assigns
`first_name_idx` and a header containing "first" assigns `last_name_idx`
(lab_scraping.py lines 183-186; the lecture scraper repeats the same
four lines at lecture_scraping.py lines 194-197). -/

structure LabColIdxs where
  labs_subtotal_numerator_idx : Int
  labs_subtotal_denominator_idx : Int
  final_project_idx : Int
  last_name_idx : Int
  first_name_idx : Int
deriving Repr, DecidableEq

/-- Initial sentinel values (lab_scraping.py lines 168-173). -/
def initLabColIdxs : LabColIdxs :=
  { labs_subtotal_numerator_idx := -1
    labs_subtotal_denominator_idx := -1
    final_project_idx := -1
    last_name_idx := -1
    first_name_idx := -1 }

/-- One iteration of the `for i, col in enumerate(cols)` loop
(lab_scraping.py lines 177-187; the maxpoints parsing inside the final
branch is independent of the indices and omitted). -/
def labColStep (finalProjectLabel : String) (st : LabColIdxs) (ic : ℕ × String) :
    LabColIdxs :=
  let i : Int := ic.1
  let colname := strToLower ic.2
  if strContains colname "numerator" then
    { st with labs_subtotal_numerator_idx := i }
  else if strContains colname "denominator" then
    { st with labs_subtotal_denominator_idx := i }
  else if strContains colname "last" then
    { st with first_name_idx := i }
  else if strContains colname "first" then
    { st with last_name_idx := i }
  else if strStartsWith (strStrip colname) (strToLower finalProjectLabel) then
    { st with final_project_idx := i }
  else st

/-- The whole resolution loop over the column headers. -/
def resolveLabColumns (finalProjectLabel : String) (cols : List String) : LabColIdxs :=
  cols.enum.foldl (labColStep finalProjectLabel) initLabColIdxs

/-- The original header that `df.rename` maps to `"Last_Name"`
(lab_scraping.py lines 198-200): the column sitting at `last_name_idx`. -/
def lastNameSourceHeader (finalProjectLabel : String) (cols : List String) :
    Option String :=
  let idx := (resolveLabColumns finalProjectLabel cols).last_name_idx
  if h : 0 ≤ idx ∧ idx.toNat < cols.length then some (cols.get ⟨idx.toNat, h.2⟩)
  else none

/-- The original header that `df.rename` maps to `"First_Name"`. -/
def firstNameSourceHeader (finalProjectLabel : String) (cols : List String) :
    Option String :=
  let idx := (resolveLabColumns finalProjectLabel cols).first_name_idx
  if h : 0 ≤ idx ∧ idx.toNat < cols.length then some (cols.get ⟨idx.toNat, h.2⟩)
  else none

/-! ### The data model (src/database/models.py)

The `id` primary keys of `GradeSnapshot` and `StudentGrade` are random
UUIDs; row identity is modelled positionally instead. `DateTime` columns
are the abstract tick `ℕ`. -/

/-- `Student` (models.py lines 17-30). -/
structure Student where
  org_defined_id : String
  username : String
  email : String
  last_name : String
  first_name : String
deriving Repr, DecidableEq

/-- `Course` (models.py lines 33-53): `course_type` is `'LAB'` or
`'LECTURE'`; the Python `section` attribute is called `section_code` here
because `section` is a Lean keyword. -/
structure Course where
  ou : String
  course_name : String
  course_type : String
  section_code : String
  semester : String
deriving Repr, DecidableEq

/-- `GradeSnapshot` (models.py lines 56-91): append-only history row. -/
structure GradeSnapshot where
  student_id : String
  course_ou : String
  snapshot_date : ℕ
  lab_numerator : Option ℚ
  lab_denominator : Option ℚ
  lab_average : Option ℚ
  dca_score : Option ℚ
  quizzes_numerator : Option ℚ
  quizzes_denominator : Option ℚ
  quizzes_average : Option ℚ
  exit_tickets_numerator : Option ℚ
  exit_tickets_denominator : Option ℚ
  exit_tickets_average : Option ℚ
deriving Repr, DecidableEq

/-- `StudentGrade` (models.py lines 94-176): the per-(student, semester)
current-grade row, called CurrentGrade in the spec. -/
structure StudentGrade where
  student_id : String
  semester : String
  lab_course_ou : Option String
  lab_numerator : Option ℚ
  lab_denominator : Option ℚ
  lab_average : Option ℚ
  dca_score : Option ℚ
  lecture_course_ou : Option String
  quizzes_numerator : Option ℚ
  quizzes_denominator : Option ℚ
  quizzes_average : Option ℚ
  exit_tickets_numerator : Option ℚ
  exit_tickets_denominator : Option ℚ
  exit_tickets_average : Option ℚ
  overall_grade_pre_final : Option ℚ
  overall_grade_post_final : Option ℚ
  last_updated : ℕ
deriving Repr, DecidableEq

/-- `StudentGrade.calculate_overall_grades` (models.py lines 135-160).
The Python truthiness guard `self.dca_score and self.dca_score > 0` is
`d ≠ 0 ∧ 0 < d` on a present value and false on `None`. -/
def calculate_overall_grades (g : StudentGrade) : StudentGrade :=
  let components : List ℚ :=
    (match g.lab_average with | some v => [v] | none => []) ++
    (match g.quizzes_average with | some v => [v] | none => []) ++
    (match g.exit_tickets_average with | some v => [v] | none => [])
  let pre : Option ℚ :=
    if 0 < components.length then some (components.sum / 3) else none
  let post : Option ℚ :=
    match pre, g.dca_score with
    | some p, some d => if d ≠ 0 ∧ 0 < d then some ((p + d) / 2) else none
    | _, _ => none
  { g with overall_grade_pre_final := pre, overall_grade_post_final := post }

/-- `StudentGrade.current_grade` (models.py lines 162-167). -/
def current_grade (g : StudentGrade) : Option ℚ :=
  match g.overall_grade_post_final with
  | some v => some v
  | none => g.overall_grade_pre_final

/-- `StudentGrade.has_final_project` (models.py lines 169-172). -/
def has_final_project (g : StudentGrade) : Bool :=
  match g.dca_score with
  | some d => decide (0 < d)
  | none => false

/-- The spec's wording of the pre-final component list (§4.3): whichever of
{lab_average, quizzes_average, exit_tickets_average} are non-null. -/
def specComponents (g : StudentGrade) : List ℚ :=
  [g.lab_average, g.quizzes_average, g.exit_tickets_average].filterMap id

/-- The spec's wording of `pre_final` (§4.3): if the component list is
non-empty, its sum divided by the fixed constant 3, else undefined. -/
def specPreFinal (g : StudentGrade) : Option ℚ :=
  if specComponents g = [] then none else some ((specComponents g).sum / 3)

/-- The spec's wording of `post_final` (§4.3): defined exactly when
`pre_final` is defined and the final-project score is defined and
strictly positive. -/
def specPostFinal (g : StudentGrade) : Option ℚ :=
  match specPreFinal g, g.dca_score with
  | some p, some d => if 0 < d then some ((p + d) / 2) else none
  | _, _ => none

/-- The spec's wording of the externally visible current grade (§4.3):
`post_final` if defined, else `pre_final`. -/
def specCurrentGrade (g : StudentGrade) : Option ℚ :=
  match specPostFinal g with
  | some v => some v
  | none => specPreFinal g

/-- The check constraint `lab_average >= 0 AND lab_average <= 100` on
`GradeSnapshot` (models.py line 84). SQL check constraints pass on NULL. -/
def check_lab_average_range : Option ℚ → Bool
  | none => true
  | some x => decide (0 ≤ x) && decide (x ≤ 100)

/-! ### The grade store
(`LabGradesScraper.save_grades_to_db`, lab_scraping.py lines 233-322, and
`LectureGradesScraper.save_grades_to_db`, lecture_scraping.py lines 253-342.)

One parsed dataframe row, after `fillna(0)` and the average computation;
every numeric entry is a plain (non-null) float. -/

structure LabRow where
  orgId : String
  username : String
  email : String
  lastName : String
  firstName : String
  lab_numerator : ℚ
  lab_denominator : ℚ
  lab_average : ℚ
  dca_score : ℚ
deriving Repr, DecidableEq

structure LectureRow where
  orgId : String
  username : String
  email : String
  lastName : String
  firstName : String
  quizzes_numerator : ℚ
  quizzes_denominator : ℚ
  quizzes_average : ℚ
  exit_tickets_numerator : ℚ
  exit_tickets_denominator : ℚ
  exit_tickets_average : ℚ
deriving Repr, DecidableEq

/-- The database state: the four tables as ordered row lists. -/
structure DBState where
  students : List Student
  courses : List Course
  snapshots : List GradeSnapshot
  grades : List StudentGrade
deriving Repr, DecidableEq

/-- `db.query(Student).filter_by(org_defined_id=org_id).first()` on the
students table. -/
def findStudentRow (ss : List Student) (oid : String) : Option Student :=
  ss.find? (fun s => s.org_defined_id == oid)

/-- `db.query(Course).filter_by(ou=ou).first()` on the courses table. -/
def findCourseRow (cs : List Course) (ou : String) : Option Course :=
  cs.find? (fun c => c.ou == ou)

/-- Get-or-create of a `Student` (lab_scraping.py lines 268-278): if a row
with this `org_defined_id` exists the table is untouched, otherwise the
new row is inserted. -/
def upsertStudentRow (ss : List Student) (s : Student) : List Student :=
  match findStudentRow ss s.org_defined_id with
  | some _ => ss
  | none => ss ++ [s]

/-- Get-or-create of a `Course` by ou (lab_scraping.py lines 252-262). -/
def upsertCourseRow (cs : List Course) (c : Course) : List Course :=
  match findCourseRow cs c.ou with
  | some _ => cs
  | none => cs ++ [c]

/-- Key test for `db.query(StudentGrade).filter_by(student_id=..., semester=...)`. -/
def gradeKeyMatches (g : StudentGrade) (sid sem : String) : Bool :=
  g.student_id == sid && g.semester == sem

/-- `db.query(StudentGrade).filter_by(student_id=..., semester=...).first()`. -/
def findGradeRow (gs : List StudentGrade) (sid sem : String) : Option StudentGrade :=
  gs.find? (fun g => gradeKeyMatches g sid sem)

/-- The ORM mutates the one object returned by `.first()`; on the list model
that is: replace the first row with this key. -/
def replaceFirstGrade : List StudentGrade → String → String → StudentGrade →
    List StudentGrade
  | [], _, _, _ => []
  | g :: gs, sid, sem, g' =>
    if gradeKeyMatches g sid sem then g' :: gs
    else g :: replaceFirstGrade gs sid sem g'

/-- Course created by the lab flow (lab_scraping.py lines 254-260). -/
def mkLabCourse (ou course_name sect semester : String) : Course :=
  { ou := ou, course_name := course_name, course_type := "LAB"
    section_code := sect, semester := semester }

/-- Course created by the LECTURE flow (lecture_scraping.py lines 272-278):
the source sets `course_type='LAB'` here, verbatim. -/
def mkLectureCourse (ou course_name sect semester : String) : Course :=
  { ou := ou, course_name := course_name, course_type := "LAB"
    section_code := sect, semester := semester }

/-- Student row created on first encounter (lab_scraping.py lines 270-276). -/
def mkStudentFromLab (row : LabRow) : Student :=
  { org_defined_id := row.orgId, username := row.username, email := row.email
    last_name := row.lastName, first_name := row.firstName }

/-- Student row created on first encounter (lecture_scraping.py lines 288-294). -/
def mkStudentFromLecture (row : LectureRow) : Student :=
  { org_defined_id := row.orgId, username := row.username, email := row.email
    last_name := row.lastName, first_name := row.firstName }

/-- The snapshot appended by the lab flow (lab_scraping.py lines 281-289):
lab-side columns filled, lecture-side columns left NULL. -/
def mkLabSnapshot (ou : String) (now : ℕ) (row : LabRow) : GradeSnapshot :=
  { student_id := row.orgId, course_ou := ou, snapshot_date := now
    lab_numerator := some row.lab_numerator
    lab_denominator := some row.lab_denominator
    lab_average := some row.lab_average
    dca_score := some row.dca_score
    quizzes_numerator := none, quizzes_denominator := none
    quizzes_average := none
    exit_tickets_numerator := none, exit_tickets_denominator := none
    exit_tickets_average := none }

/-- The snapshot appended by the lecture flow (lecture_scraping.py
lines 299-308): lecture-side columns filled, lab-side left NULL
(`dca_score` takes its column default 0 at insert, models.py line 68). -/
def mkLectureSnapshot (ou : String) (now : ℕ) (row : LectureRow) : GradeSnapshot :=
  { student_id := row.orgId, course_ou := ou, snapshot_date := now
    lab_numerator := none, lab_denominator := none, lab_average := none
    dca_score := some 0
    quizzes_numerator := some row.quizzes_numerator
    quizzes_denominator := some row.quizzes_denominator
    quizzes_average := some row.quizzes_average
    exit_tickets_numerator := some row.exit_tickets_numerator
    exit_tickets_denominator := some row.exit_tickets_denominator
    exit_tickets_average := some row.exit_tickets_average }

/-- A fresh `StudentGrade(student_id=..., semester=...)` before any field
assignment (lab_scraping.py lines 297-302): every grade column is NULL in
the Python object; `last_updated` takes its insert default. -/
def newStudentGrade (sid sem : String) (now : ℕ) : StudentGrade :=
  { student_id := sid, semester := sem
    lab_course_ou := none, lab_numerator := none, lab_denominator := none
    lab_average := none, dca_score := none
    lecture_course_ou := none, quizzes_numerator := none
    quizzes_denominator := none, quizzes_average := none
    exit_tickets_numerator := none, exit_tickets_denominator := none
    exit_tickets_average := none
    overall_grade_pre_final := none, overall_grade_post_final := none
    last_updated := now }

/-- The `dca_score` column default 0 (models.py line 106), applied at INSERT
when the attribute was never assigned. -/
def applyInsertDefaults (g : StudentGrade) : StudentGrade :=
  { g with dca_score := match g.dca_score with | none => some 0 | some v => some v }

/-- The lab-side field assignments plus `calculate_overall_grades`
(lab_scraping.py lines 304-312). -/
def labUpdateGrade (ou : String) (row : LabRow) (g : StudentGrade) : StudentGrade :=
  calculate_overall_grades
    { g with
      lab_course_ou := some ou
      lab_numerator := some row.lab_numerator
      lab_denominator := some row.lab_denominator
      lab_average := some row.lab_average
      dca_score := some row.dca_score }

/-- The lecture-side field assignments plus `calculate_overall_grades`
(lecture_scraping.py lines 324-334); `student_grade.lecture_course = course`
sets the foreign key to the course's ou. -/
def lectureUpdateGrade (ou : String) (row : LectureRow) (g : StudentGrade) :
    StudentGrade :=
  calculate_overall_grades
    { g with
      lecture_course_ou := some ou
      quizzes_numerator := some row.quizzes_numerator
      quizzes_denominator := some row.quizzes_denominator
      quizzes_average := some row.quizzes_average
      exit_tickets_numerator := some row.exit_tickets_numerator
      exit_tickets_denominator := some row.exit_tickets_denominator
      exit_tickets_average := some row.exit_tickets_average }

/-- Flush semantics of the ORM for an updated row: an UPDATE is emitted only
when some attribute has a net change; only then does
`onupdate=datetime.now` (models.py line 121) refresh `last_updated`.
Assigning values equal to the stored ones produces no net change and
leaves the row untouched. -/
def putUpdatedGrade (now : ℕ) (gOld gNew : StudentGrade) : StudentGrade :=
  if gNew = gOld then gOld else { gNew with last_updated := now }

/-- Update-or-create of the `StudentGrade` row for
`(row.orgId, semester)` by the lab flow (lab_scraping.py lines 292-312):
if the row exists, assign the lab-side fields and recompute the overall
grades on that object; otherwise insert a fresh row with the lab-side
fields set and column defaults applied. -/
def upsertLabGrade (ou sem : String) (now : ℕ) (gs : List StudentGrade) (row : LabRow) :
    List StudentGrade :=
  match findGradeRow gs row.orgId sem with
  | some g =>
    replaceFirstGrade gs row.orgId sem (putUpdatedGrade now g (labUpdateGrade ou row g))
  | none =>
    gs ++ [applyInsertDefaults (labUpdateGrade ou row (newStudentGrade row.orgId sem now))]

/-- Update-or-create of the `StudentGrade` row by the lecture flow
(lecture_scraping.py lines 311-334). -/
def upsertLectureGrade (ou sem : String) (now : ℕ) (gs : List StudentGrade)
    (row : LectureRow) : List StudentGrade :=
  match findGradeRow gs row.orgId sem with
  | some g =>
    replaceFirstGrade gs row.orgId sem (putUpdatedGrade now g (lectureUpdateGrade ou row g))
  | none =>
    gs ++ [applyInsertDefaults (lectureUpdateGrade ou row (newStudentGrade row.orgId sem now))]

/-- One iteration of the per-row loop of the lab flow's `save_grades_to_db`
(lab_scraping.py lines 264-312): get-or-create the student, append one
snapshot, then update-or-create the `StudentGrade` row. -/
def saveLabRow (ou sem : String) (now : ℕ) (st : DBState) (row : LabRow) : DBState :=
  { st with
    students := upsertStudentRow st.students (mkStudentFromLab row)
    snapshots := st.snapshots ++ [mkLabSnapshot ou now row]
    grades := upsertLabGrade ou sem now st.grades row }

/-- One iteration of the per-row loop of the lecture flow's
`save_grades_to_db` (lecture_scraping.py lines 282-334). -/
def saveLectureRow (ou sem : String) (now : ℕ) (st : DBState) (row : LectureRow) :
    DBState :=
  { st with
    students := upsertStudentRow st.students (mkStudentFromLecture row)
    snapshots := st.snapshots ++ [mkLectureSnapshot ou now row]
    grades := upsertLectureGrade ou sem now st.grades row }

/-- One iteration of the outer per-table loop of the lab flow's
`save_grades_to_db` (lab_scraping.py lines 241-314): get-or-create the
`Course`, then process each dataframe row in source order, committing at
the end of the table. -/
def saveLabTable (ou course_name sect sem : String) (now : ℕ) (st : DBState)
    (rows : List LabRow) : DBState :=
  let st1 := { st with courses := upsertCourseRow st.courses (mkLabCourse ou course_name sect sem) }
  rows.foldl (saveLabRow ou sem now) st1

/-- One iteration of the outer per-table loop of the lecture flow's
`save_grades_to_db` (lecture_scraping.py lines 260-335). -/
def saveLectureTable (ou course_name sect sem : String) (now : ℕ) (st : DBState)
    (rows : List LectureRow) : DBState :=
  let st1 := { st with courses := upsertCourseRow st.courses (mkLectureCourse ou course_name sect sem) }
  rows.foldl (saveLectureRow ou sem now) st1

/-- The lecture-side fields of a `StudentGrade` row, as one tuple. -/
def lectureSideOf (g : StudentGrade) :
    Option String × Option ℚ × Option ℚ × Option ℚ × Option ℚ × Option ℚ × Option ℚ :=
  (g.lecture_course_ou, g.quizzes_numerator, g.quizzes_denominator, g.quizzes_average,
   g.exit_tickets_numerator, g.exit_tickets_denominator, g.exit_tickets_average)

/-- The lab-side fields of a `StudentGrade` row (the final-project score is
written by the lab flow), as one tuple. -/
def labSideOf (g : StudentGrade) :
    Option String × Option ℚ × Option ℚ × Option ℚ × Option ℚ :=
  (g.lab_course_ou, g.lab_numerator, g.lab_denominator, g.lab_average, g.dca_score)

/-- The per-(student, semester) grade row for this dataframe row exists and
absorbs one more identical lab-side write without change. -/
def labFixedRow (ou sem : String) (gs : List StudentGrade) (row : LabRow) : Prop :=
  ∃ g, findGradeRow gs row.orgId sem = some g ∧ labUpdateGrade ou row g = g

/-- A student row with this identifier exists. -/
def presentStudent (ss : List Student) (oid : String) : Prop :=
  (findStudentRow ss oid).isSome = true

/-! ### Phase-2 failure handling
(`scrape_lab_grades` / `scrape_lecture_grades`, scrape.py lines 106-114 and
166-174, together with the try/except around the per-table loop of
`save_grades_to_db`, lab_scraping.py lines 240-322.)

Tables are abstracted to their names; `fails t = true` means the commit of
table `t` raises. `save_grades_to_db` commits table after table inside one
try block: on the first failing table it rolls that table's writes back
and re-raises, so the rest of that scraper's tables is never reached.
Phase 2 in scrape.py wraps each scraper's `save_grades_to_db` call in its
own try/except and continues with the next scraper. -/

/-- Which tables of one scraper's map get committed, and the table whose
commit raised, if any (`save_grades_to_db`'s loop). -/
def saveGradesCommits (fails : String → Bool) : List String →
    List String × Option String
  | [] => ([], none)
  | t :: ts =>
    if fails t then ([], some t)
    else
      let rest := saveGradesCommits fails ts
      (t :: rest.1, rest.2)

/-- Phase 2 of `scrape_lab_grades` / `scrape_lecture_grades`: iterate the
scrapers sequentially, swallowing each scraper's failure; returns every
table committed during the run, in commit order. -/
def phase2Committed (fails : String → Bool) (scrapers : List (List String)) :
    List String :=
  (scrapers.map (fun ts => (saveGradesCommits fails ts).1)).flatten

/-! ### Concrete inputs used by counterexamples and witnesses. -/

/-- The empty database, as created by `init_database`. -/
def emptyDB : DBState := { students := [], courses := [], snapshots := [], grades := [] }

/-- A failure profile for the Phase-2 model: committing table "B" raises. -/
def demoFails : String → Bool := fun t => t == "B"

/-- Headers of a typical exported lab gradebook CSV (after the `Username`
insertion), featuring one "last"-column and one "first"-column. -/
def demoLabHeaders : List String :=
  ["OrgDefinedId", "Last Name", "First Name", "Email", "Username",
   "Lab Numerator", "Lab Denominator", "Audit MaxPoints:300"]

/-- One aggregated lab dataframe row. -/
def demoLabRow : LabRow :=
  { orgId := "E001", username := "doej", email := "doej@etsu.edu"
    lastName := "Doe", firstName := "Jan"
    lab_numerator := 45, lab_denominator := 50, lab_average := 90, dca_score := 90 }

/-- One aggregated lecture dataframe row for the same student. -/
def demoLectureRow : LectureRow :=
  { orgId := "E001", username := "doej", email := "doej@etsu.edu"
    lastName := "Doe", firstName := "Jan"
    quizzes_numerator := 40, quizzes_denominator := 50, quizzes_average := 80
    exit_tickets_numerator := 35, exit_tickets_denominator := 50
    exit_tickets_average := 70 }

/-- An existing `StudentGrade` row with both sides last written. -/
def demoGrade : StudentGrade :=
  { student_id := "E001", semester := "202580"
    lab_course_ou := some "10331755", lab_numerator := some 40
    lab_denominator := some 50, lab_average := some 80, dca_score := some 75
    lecture_course_ou := some "10219691", quizzes_numerator := some 30
    quizzes_denominator := some 50, quizzes_average := some 60
    exit_tickets_numerator := some 25, exit_tickets_denominator := some 50
    exit_tickets_average := some 50
    overall_grade_pre_final := some (190 / 3)
    overall_grade_post_final := some (415 / 6)
    last_updated := 3 }

/-- A database holding just `demoGrade`. -/
def demoDB : DBState := { students := [], courses := [], snapshots := [], grades := [demoGrade] }

/-! ## Theorems -/

/-! ### C10: the default semester code -/

/-- C10 counterexample: August 20 lies between August 1 and December 15,
yet `get_current_semester` produces the fall code "80", not the summer
code "50" — the claim's universal "so every date from August 1 through
December 15 carries '50'" is false at this date. -/
theorem c10_counterexample :
    get_current_semester 2025 8 20 = "202580" ∧
    termCode 8 20 = "80" ∧
    termCode 8 20 ≠ "50" ∧
    ((8 : ℕ) < 8 ∨ (8 = 8 ∧ (1 : ℕ) ≤ 20)) ∧
    ((8 : ℕ) < 12 ∨ ((8 : ℕ) = 12 ∧ (20 : ℕ) ≤ 15)) := by
  refine ⟨?_, by decide, by decide, by decide, by decide⟩
  rfl

/-- C10 amended: the default semester code is the current year followed by
`termCode`; the term code is "10" for months before May, "80" only when
the month is after July and the day exceeds 15, and "50" in every other
case; consequently every date from August 1 through December 15 whose day
of the month is at most 15 carries "50". -/
theorem c10_amended (y m d : ℕ) :
    get_current_semester y m d = toString y ++ termCode m d ∧
    (m < 5 → termCode m d = "10") ∧
    (termCode m d = "80" → 7 < m ∧ 15 < d) ∧
    (¬ m < 5 → ¬ (7 < m ∧ 15 < d) → termCode m d = "50") ∧
    (8 ≤ m → m ≤ 12 → d ≤ 15 → termCode m d = "50") := by
  refine ⟨rfl, ?_, ?_, ?_, ?_⟩
  · intro h
    unfold termCode
    rw [if_pos h]
  · intro h
    unfold termCode at h
    split_ifs at h with h1 h2
    · exact absurd h (by decide)
    · exact h2
    · exact absurd h (by decide)
  · intro h1 h2
    unfold termCode
    rw [if_neg h1, if_neg h2]
  · intro h8 h12 h15
    unfold termCode
    rw [if_neg (by omega : ¬ m < 5), if_neg (by omega : ¬ (7 < m ∧ 15 < d))]

/-- C10 witness: September 10 falls in the claimed range with day at most
15 and indeed gets the summer code. -/
theorem c10_amended_witness :
    termCode 9 10 = "50" ∧ get_current_semester 2025 9 10 = toString 2025 ++ termCode 9 10 := by
  have h := c10_amended 2025 9 10
  exact ⟨h.2.2.2.2 (by decide) (by decide) (by decide), h.1⟩

/-! ### C9: Phase-2 failure isolation -/

/-- The per-table commit loop of `save_grades_to_db` commits exactly the
longest prefix of tables whose commits succeed: the failing table is
rolled back and the loop aborts, skipping the rest of the batch. -/
theorem saveGradesCommits_fst (fails : String → Bool) :
    ∀ ts : List String,
      (saveGradesCommits fails ts).1 = ts.takeWhile (fun t => !fails t) := by
  intro ts
  induction ts with
  | nil => rfl
  | cons t ts ih =>
    by_cases h : fails t
    · simp [saveGradesCommits, List.takeWhile_cons, h]
    · simp [saveGradesCommits, List.takeWhile_cons, h, ih]

/-- C9 counterexample: with one worker-batch ["A", "B", "C"] and the commit
of "B" failing, only "A" is committed; "C" comes after the failing table
and is nevertheless not processed, contradicting the claim that tables
after the failing one are still processed. -/
theorem c9_counterexample :
    phase2Committed demoFails [["A", "B", "C"]] = ["A"] ∧
    "C" ∉ phase2Committed demoFails [["A", "B", "C"]] ∧
    demoFails "B" = true ∧
    demoFails "C" = false := by
  refine ⟨rfl, ?_, rfl, rfl⟩
  intro h
  simp [phase2Committed, demoFails, saveGradesCommits] at h

/-- C9 amended: Phase 2 commits, per worker batch, exactly the prefix of
tables before the first failing commit: tables committed before a failure
remain stored, the failing table's writes are rolled back, the remainder
of that batch is skipped, and every later batch is still processed. -/
theorem c9_amended (fails : String → Bool) (scrapers : List (List String)) :
    phase2Committed fails scrapers =
      (scrapers.map (fun ts => ts.takeWhile (fun t => !fails t))).flatten := by
  unfold phase2Committed
  rw [List.map_congr_left (fun ts _ => saveGradesCommits_fst fails ts)]

/-! ### C4: the type tag of created Sections -/

/-- C4: the lab flow stores its Sections with type "LAB", but the lecture
flow's `save_grades_to_db` also creates its Course with
`course_type='LAB'` (lecture_scraping.py line 275), so a Section created
by the lecture-ingestion flow does not carry the LECTURE tag. -/
theorem c4_lecture_course_type :
    (mkLabCourse "10331755" "CSCI-1150" "001" "202580").course_type = "LAB" ∧
    (mkLectureCourse "10219691" "CSCI-1100" "001" "202580").course_type = "LAB" ∧
    (mkLectureCourse "10219691" "CSCI-1100" "001" "202580").course_type ≠ "LECTURE" ∧
    (saveLectureTable "10219691" "CSCI-1100" "001" "202580" 0 emptyDB []).courses =
      [{ ou := "10219691", course_name := "CSCI-1100", course_type := "LAB",
         section_code := "001", semester := "202580" }] := by
  exact ⟨rfl, rfl, by decide, rfl⟩

/-! ### C3: name-column resolution -/

/-- C3: on a table whose second header contains "last" (index 1) and whose
third header contains "first" (index 2), the resolution loop leaves
`last_name_idx = 2` and `first_name_idx = 1` (lab_scraping.py
lines 183-186 assign the indices the other way around), so the column
whose header contains "last" feeds the first-name field and vice versa. -/
theorem c3_name_columns_swapped :
    strContains (strToLower "Last Name") "last" = true ∧
    strContains (strToLower "First Name") "first" = true ∧
    (resolveLabColumns "Audit" demoLabHeaders).last_name_idx = 2 ∧
    (resolveLabColumns "Audit" demoLabHeaders).first_name_idx = 1 ∧
    lastNameSourceHeader "Audit" demoLabHeaders = some "First Name" ∧
    firstNameSourceHeader "Audit" demoLabHeaders = some "Last Name" := by
  decide

/-! ### C2: zero-denominator mode substitution -/

/-- C2: on the denominator column [0, 0, 5] the zero is the most frequent
value, so `df[col].mode()[0]` is 0 and the `replace(0, mode)` call leaves
both zero denominators in place — the later average computation does
divide by zero. The spec's policy (replace zeros by the most frequent
NON-zero value) would have produced [5, 5, 5]. -/
theorem c2_mode_of_zero_column :
    pandasModeHead [0, 0, 5] = 0 ∧
    substituteZeros [0, 0, 5] = [0, 0, 5] ∧
    (0 : ℚ) ∈ substituteZeros [0, 0, 5] ∧
    specSubstituteZeros [0, 0, 5] = [5, 5, 5] := by
  decide

/-! ### C8: exit-ticket rounding -/

/-- C8: quiz and lab averages are the bare `100 * numerator / denominator`;
the exit-ticket average rounds the ratio to six decimals before scaling,
so numerator 49.999998 over denominator 50 gives exactly 100 where the
unrounded quiz formula would give 99.999996. -/
theorem c8_exit_ticket_rounding :
    (∀ n d : ℚ, quizzesAverage n d = 100 * (n / d)) ∧
    (∀ n d : ℚ, labAverage n d = 100 * (n / d)) ∧
    (∀ n d : ℚ, exitTicketsAverage n d = 100 * roundTo6 (n / d)) ∧
    exitTicketsAverage (49999998 / 1000000) 50 = 100 ∧
    quizzesAverage (49999998 / 1000000) 50 = 99999996 / 1000000 ∧
    quizzesAverage (49999998 / 1000000) 50 ≠ 100 := by
  refine ⟨fun n d => rfl, fun n d => rfl, fun n d => rfl, ?_, ?_, ?_⟩
  · have h1 : ((49999998 : ℚ) / 1000000 / 50) * 1000000 = 24999999 / 25 := by
      norm_num
    have h2 : (⌊(24999999 / 25 : ℚ)⌋ : ℤ) = 999999 := by
      rw [Int.floor_eq_iff]
      norm_num
    simp only [exitTicketsAverage, roundTo6, roundHalfToEven, h1, h2]
    norm_num
  · norm_num [quizzesAverage]
  · norm_num [quizzesAverage]

/-! ### C5: averages above 100 -/

/-- C5 counterexample: numerator 60 over (substituted) denominator 50 gives
the unclamped average 120, but the `GradeSnapshot` check constraint
`lab_average <= 100` (models.py line 84) rejects that value, so it is not
preserved through storage — the insert fails and the table's writes roll
back. -/
theorem c5_counterexample :
    labAverage 60 50 = 120 ∧
    (100 : ℚ) < labAverage 60 50 ∧
    check_lab_average_range (some (labAverage 60 50)) = false := by
  have h : labAverage 60 50 = 120 := by norm_num [labAverage]
  refine ⟨h, by rw [h]; norm_num, ?_⟩
  rw [h]
  simp [check_lab_average_range]
  norm_num

/-- C5 amended: whenever the numerator exceeds a positive substituted
denominator, the computed average is strictly above 100 and the
aggregation itself never clamps it; such a value however violates the
`GradeSnapshot` range constraint, so it is rejected at persistence rather
than stored (clamped or otherwise). -/
theorem c5_amended (num denom : ℚ) (hd : 0 < denom) (hn : denom < num) :
    100 < labAverage num denom ∧
    labAverage num denom = 100 * (num / denom) ∧
    check_lab_average_range (some (labAverage num denom)) = false := by
  have h100 : 100 < labAverage num denom := by
    unfold labAverage
    have h1 : 1 < num / denom := (one_lt_div hd).mpr hn
    linarith
  refine ⟨h100, rfl, ?_⟩
  have hnot : ¬ (labAverage num denom ≤ 100) := by linarith
  simp [check_lab_average_range, decide_eq_false hnot]

/-- C5 witness: the amended statement at numerator 60, denominator 50. -/
theorem c5_amended_witness :
    100 < labAverage 60 50 ∧
    labAverage 60 50 = 100 * ((60 : ℚ) / 50) ∧
    check_lab_average_range (some (labAverage 60 50)) = false :=
  c5_amended 60 50 (by norm_num) (by norm_num)

/-! ### C1: overall-grade recomputation -/

/-- The Python truthiness guard on the final-project score coincides with
strict positivity. -/
theorem dca_truthy_iff (d : ℚ) : (d ≠ 0 ∧ 0 < d) ↔ 0 < d :=
  ⟨fun h => h.2, fun h => ⟨h.ne', h⟩⟩

/-- C1: `calculate_overall_grades` sets `pre_final` to the sum of the
non-null components divided by the fixed 3 (undefined when all three are
null), sets `post_final` to `(pre_final + dca_score) / 2` exactly when
`pre_final` is defined and the final-project score is defined and
strictly positive, and `current_grade` is `post_final` when defined, else
`pre_final`. -/
theorem c1_overall_grade_recomputation (g : StudentGrade) :
    (calculate_overall_grades g).overall_grade_pre_final = specPreFinal g ∧
    (calculate_overall_grades g).overall_grade_post_final = specPostFinal g ∧
    current_grade (calculate_overall_grades g) = specCurrentGrade g := by
  rcases g with ⟨sid, sem, lco, ln, ld, la, dca, cco, qn, qd, qa, en, ed, ea, pre, post, lu⟩
  rcases la with _ | a <;> rcases qa with _ | b <;> rcases ea with _ | c <;>
    rcases dca with _ | d <;>
      simp [calculate_overall_grades, specPreFinal, specComponents, specPostFinal,
        specCurrentGrade, current_grade, dca_truthy_iff]

/-! ### Record-level lemmas about the grade-row updates (towards C6 and C7) -/

/-- Writing the same lab-side values twice and recomputing the overall
grades twice is the same as doing it once. -/
theorem labUpdateGrade_idem (ou : String) (row : LabRow) (g : StudentGrade) :
    labUpdateGrade ou row (labUpdateGrade ou row g) = labUpdateGrade ou row g := rfl

theorem lectureUpdateGrade_idem (ou : String) (row : LectureRow) (g : StudentGrade) :
    lectureUpdateGrade ou row (lectureUpdateGrade ou row g) = lectureUpdateGrade ou row g := rfl

/-- The lab-side update commutes with touching only `last_updated`. -/
theorem labUpdateGrade_lu (ou : String) (row : LabRow) (g : StudentGrade) (t : ℕ) :
    labUpdateGrade ou row { g with last_updated := t } =
      { labUpdateGrade ou row g with last_updated := t } := rfl

theorem lectureUpdateGrade_lu (ou : String) (row : LectureRow) (g : StudentGrade) (t : ℕ) :
    lectureUpdateGrade ou row { g with last_updated := t } =
      { lectureUpdateGrade ou row g with last_updated := t } := rfl

/-- The lab flow assigns `dca_score`, so the insert default is a no-op. -/
theorem applyInsertDefaults_labUpdate (ou : String) (row : LabRow) (g : StudentGrade) :
    applyInsertDefaults (labUpdateGrade ou row g) = labUpdateGrade ou row g := rfl

/-- The lecture flow's update leaves `dca_score` alone; on a fresh row the
insert default fills it with 0, after which the update is idempotent. -/
theorem lectureUpdate_applyDefaults_fix (ou : String) (row : LectureRow)
    (sid sem : String) (now : ℕ) :
    lectureUpdateGrade ou row
        (applyInsertDefaults (lectureUpdateGrade ou row (newStudentGrade sid sem now))) =
      applyInsertDefaults (lectureUpdateGrade ou row (newStudentGrade sid sem now)) := rfl

/-- The lab update does not touch the identifying key. -/
theorem labUpdateGrade_key (ou : String) (row : LabRow) (g : StudentGrade) :
    (labUpdateGrade ou row g).student_id = g.student_id ∧
    (labUpdateGrade ou row g).semester = g.semester := ⟨rfl, rfl⟩

theorem lectureUpdateGrade_key (ou : String) (row : LectureRow) (g : StudentGrade) :
    (lectureUpdateGrade ou row g).student_id = g.student_id ∧
    (lectureUpdateGrade ou row g).semester = g.semester := ⟨rfl, rfl⟩

/-- The lab update leaves every lecture-side field untouched. -/
theorem lectureSideOf_labUpdate (ou : String) (row : LabRow) (g : StudentGrade) :
    lectureSideOf (labUpdateGrade ou row g) = lectureSideOf g := rfl

/-- The lecture update leaves every lab-side field (including the
final-project score) untouched. -/
theorem labSideOf_lectureUpdate (ou : String) (row : LectureRow) (g : StudentGrade) :
    labSideOf (lectureUpdateGrade ou row g) = labSideOf g := rfl

/-- The flush step preserves the key and every field other than
`last_updated` of the updated value. -/
theorem putUpdatedGrade_key_labSide_lectureSide (now : ℕ) (gOld gNew : StudentGrade) :
    (putUpdatedGrade now gOld gNew).student_id = gNew.student_id ∧
    (putUpdatedGrade now gOld gNew).semester = gNew.semester ∧
    lectureSideOf (putUpdatedGrade now gOld gNew) = lectureSideOf gNew ∧
    labSideOf (putUpdatedGrade now gOld gNew) = labSideOf gNew := by
  unfold putUpdatedGrade
  split
  · rename_i h
    rw [h]
    exact ⟨rfl, rfl, rfl, rfl⟩
  · exact ⟨rfl, rfl, rfl, rfl⟩

/-- The flushed result of a lab-side update absorbs a further identical
lab-side update without change. -/
theorem labUpdate_putUpdated_fix (ou : String) (row : LabRow) (now : ℕ) (g : StudentGrade) :
    labUpdateGrade ou row (putUpdatedGrade now g (labUpdateGrade ou row g)) =
      putUpdatedGrade now g (labUpdateGrade ou row g) := by
  unfold putUpdatedGrade
  split
  · rename_i h
    exact h
  · rw [labUpdateGrade_lu, labUpdateGrade_idem]

theorem lectureUpdate_putUpdated_fix (ou : String) (row : LectureRow) (now : ℕ)
    (g : StudentGrade) :
    lectureUpdateGrade ou row (putUpdatedGrade now g (lectureUpdateGrade ou row g)) =
      putUpdatedGrade now g (lectureUpdateGrade ou row g) := by
  unfold putUpdatedGrade
  split
  · rename_i h
    exact h
  · rw [lectureUpdateGrade_lu, lectureUpdateGrade_idem]

/-! ### List-level lemmas about lookups and the first-match replacement -/

/-- Lookup on a non-empty table whose head matches. -/
theorem findGradeRow_cons_pos {x : StudentGrade} {sid sem : String}
    (xs : List StudentGrade) (hx : gradeKeyMatches x sid sem = true) :
    findGradeRow (x :: xs) sid sem = some x :=
  List.find?_cons_of_pos xs (show (fun g => gradeKeyMatches g sid sem) x = true from hx)

/-- Lookup on a non-empty table whose head does not match. -/
theorem findGradeRow_cons_neg {x : StudentGrade} {sid sem : String}
    (xs : List StudentGrade) (hx : gradeKeyMatches x sid sem = false) :
    findGradeRow (x :: xs) sid sem = findGradeRow xs sid sem :=
  List.find?_cons_of_neg xs
    (show ¬ (fun g => gradeKeyMatches g sid sem) x = true from by simp [hx])

/-- The key fields of a row found by key. -/
theorem key_of_found {gs : List StudentGrade} {sid sem : String} {g : StudentGrade}
    (h : findGradeRow gs sid sem = some g) :
    g.student_id = sid ∧ g.semester = sem := by
  have hp := List.find?_some h
  simpa [gradeKeyMatches] using hp

/-- Two keys disagree, so a row carrying the first key fails the second. -/
theorem keyMatches_false_of_ne {g : StudentGrade} {sid sem sid2 sem2 : String}
    (hk : g.student_id = sid ∧ g.semester = sem)
    (hne : ¬ (sid = sid2 ∧ sem = sem2)) :
    gradeKeyMatches g sid2 sem2 = false := by
  rcases hk with ⟨h1, h2⟩
  simp only [gradeKeyMatches, h1, h2, Bool.and_eq_false_iff, beq_eq_false_iff_ne, ne_eq]
  by_cases hs : sid = sid2
  · exact Or.inr fun h => hne ⟨hs, h⟩
  · exact Or.inl hs

/-- A row found in a prefix is still the first match after appending. -/
theorem findGradeRow_append_some {gs : List StudentGrade} {sid sem : String}
    {g : StudentGrade} (h : findGradeRow gs sid sem = some g) (hs : List StudentGrade) :
    findGradeRow (gs ++ hs) sid sem = some g := by
  unfold findGradeRow at h ⊢
  rw [List.find?_append, h]
  rfl

/-- With no match in the prefix, lookup continues in the suffix. -/
theorem findGradeRow_append_none {gs : List StudentGrade} {sid sem : String}
    (h : findGradeRow gs sid sem = none) (hs : List StudentGrade) :
    findGradeRow (gs ++ hs) sid sem = findGradeRow hs sid sem := by
  unfold findGradeRow at h ⊢
  rw [List.find?_append, h]
  rfl

/-- Replacing the first match by itself changes nothing. -/
theorem replaceFirstGrade_self {gs : List StudentGrade} {sid sem : String}
    {g : StudentGrade} (h : findGradeRow gs sid sem = some g) :
    replaceFirstGrade gs sid sem g = gs := by
  induction gs with
  | nil => simp [findGradeRow] at h
  | cons x xs ih =>
    cases hx : gradeKeyMatches x sid sem with
    | true =>
      rw [findGradeRow_cons_pos xs hx] at h
      rw [replaceFirstGrade, if_pos hx, Option.some_inj.mp h]
    | false =>
      rw [findGradeRow_cons_neg xs hx] at h
      rw [replaceFirstGrade, if_neg (by simp [hx]), ih h]

/-- After replacing the first match by a value carrying the same key, the
lookup returns the replacement. -/
theorem findGradeRow_replaceFirst_found {gs : List StudentGrade} {sid sem : String}
    {g : StudentGrade} (v : StudentGrade) (h : findGradeRow gs sid sem = some g)
    (hv : gradeKeyMatches v sid sem = true) :
    findGradeRow (replaceFirstGrade gs sid sem v) sid sem = some v := by
  induction gs with
  | nil => simp [findGradeRow] at h
  | cons x xs ih =>
    cases hx : gradeKeyMatches x sid sem with
    | true =>
      rw [replaceFirstGrade, if_pos hx, findGradeRow_cons_pos xs hv]
    | false =>
      rw [findGradeRow_cons_neg xs hx] at h
      rw [replaceFirstGrade, if_neg (by simp [hx]), findGradeRow_cons_neg _ hx]
      exact ih h

/-- Replacing the first match of one key does not disturb lookups of a
different key, provided the replacement also carries the replaced key. -/
theorem findGradeRow_replaceFirst_ne {gs : List StudentGrade} {sid2 sem2 : String}
    (sid sem : String) (v : StudentGrade)
    (hne : ¬ (sid = sid2 ∧ sem = sem2))
    (hv : v.student_id = sid ∧ v.semester = sem) :
    findGradeRow (replaceFirstGrade gs sid sem v) sid2 sem2 =
      findGradeRow gs sid2 sem2 := by
  have hvne : gradeKeyMatches v sid2 sem2 = false := keyMatches_false_of_ne hv hne
  induction gs with
  | nil => rfl
  | cons x xs ih =>
    cases hx : gradeKeyMatches x sid sem with
    | true =>
      have hxk : x.student_id = sid ∧ x.semester = sem := by
        simpa [gradeKeyMatches] using hx
      have hxne : gradeKeyMatches x sid2 sem2 = false := keyMatches_false_of_ne hxk hne
      rw [replaceFirstGrade, if_pos hx, findGradeRow_cons_neg xs hvne,
        findGradeRow_cons_neg xs hxne]
    | false =>
      rw [replaceFirstGrade, if_neg (by simp [hx])]
      cases hx2 : gradeKeyMatches x sid2 sem2 with
      | true =>
        rw [findGradeRow_cons_pos _ hx2, findGradeRow_cons_pos xs hx2]
      | false =>
        rw [findGradeRow_cons_neg _ hx2, findGradeRow_cons_neg xs hx2]
        exact ih

/-! ### Frame lemmas: one side's upsert leaves the other side alone -/

/-- The value written back by the lab flow keeps the row's key. -/
theorem putLab_key (ou : String) (row : LabRow) (now : ℕ) (g0 : StudentGrade) :
    (putUpdatedGrade now g0 (labUpdateGrade ou row g0)).student_id = g0.student_id ∧
    (putUpdatedGrade now g0 (labUpdateGrade ou row g0)).semester = g0.semester := by
  have h := putUpdatedGrade_key_labSide_lectureSide now g0 (labUpdateGrade ou row g0)
  exact ⟨h.1, h.2.1⟩

/-- The value written back by the lecture flow keeps the row's key. -/
theorem putLecture_key (ou : String) (row : LectureRow) (now : ℕ) (g0 : StudentGrade) :
    (putUpdatedGrade now g0 (lectureUpdateGrade ou row g0)).student_id = g0.student_id ∧
    (putUpdatedGrade now g0 (lectureUpdateGrade ou row g0)).semester = g0.semester := by
  have h := putUpdatedGrade_key_labSide_lectureSide now g0 (lectureUpdateGrade ou row g0)
  exact ⟨h.1, h.2.1⟩

/-- After one lab-row upsert, every pre-existing grade row is still found
under its key, with its lecture side and key untouched. -/
theorem upsertLabGrade_frame (ou sem : String) (now : ℕ) (gs : List StudentGrade)
    (row : LabRow) {sid2 sem2 : String} {g : StudentGrade}
    (h : findGradeRow gs sid2 sem2 = some g) :
    ∃ g', findGradeRow (upsertLabGrade ou sem now gs row) sid2 sem2 = some g' ∧
      lectureSideOf g' = lectureSideOf g ∧
      g'.student_id = g.student_id ∧ g'.semester = g.semester := by
  unfold upsertLabGrade
  cases hfind : findGradeRow gs row.orgId sem with
  | none =>
    exact ⟨g, findGradeRow_append_some h _, rfl, rfl, rfl⟩
  | some g0 =>
    have hg0k := key_of_found hfind
    have hvk := putLab_key ou row now g0
    have hvk2 : (putUpdatedGrade now g0 (labUpdateGrade ou row g0)).student_id = row.orgId ∧
        (putUpdatedGrade now g0 (labUpdateGrade ou row g0)).semester = sem :=
      ⟨hvk.1.trans hg0k.1, hvk.2.trans hg0k.2⟩
    by_cases hk : row.orgId = sid2 ∧ sem = sem2
    · rcases hk with ⟨hk1, hk2⟩
      subst hk1
      subst hk2
      have hg : g0 = g := Option.some_inj.mp (hfind.symm.trans h)
      subst hg
      refine ⟨putUpdatedGrade now g0 (labUpdateGrade ou row g0), ?_, ?_, hvk.1, hvk.2⟩
      · refine findGradeRow_replaceFirst_found _ hfind ?_
        simp [gradeKeyMatches, hvk2.1, hvk2.2]
      · have hs := putUpdatedGrade_key_labSide_lectureSide now g0 (labUpdateGrade ou row g0)
        exact hs.2.2.1.trans (lectureSideOf_labUpdate ou row g0)
    · refine ⟨g, ?_, rfl, rfl, rfl⟩
      rw [findGradeRow_replaceFirst_ne row.orgId sem _ hk hvk2]
      exact h

/-- After one lecture-row upsert, every pre-existing grade row is still
found under its key, with its lab side (including the final-project
score) and key untouched. -/
theorem upsertLectureGrade_frame (ou sem : String) (now : ℕ) (gs : List StudentGrade)
    (row : LectureRow) {sid2 sem2 : String} {g : StudentGrade}
    (h : findGradeRow gs sid2 sem2 = some g) :
    ∃ g', findGradeRow (upsertLectureGrade ou sem now gs row) sid2 sem2 = some g' ∧
      labSideOf g' = labSideOf g ∧
      g'.student_id = g.student_id ∧ g'.semester = g.semester := by
  unfold upsertLectureGrade
  cases hfind : findGradeRow gs row.orgId sem with
  | none =>
    exact ⟨g, findGradeRow_append_some h _, rfl, rfl, rfl⟩
  | some g0 =>
    have hg0k := key_of_found hfind
    have hvk := putLecture_key ou row now g0
    have hvk2 : (putUpdatedGrade now g0 (lectureUpdateGrade ou row g0)).student_id = row.orgId ∧
        (putUpdatedGrade now g0 (lectureUpdateGrade ou row g0)).semester = sem :=
      ⟨hvk.1.trans hg0k.1, hvk.2.trans hg0k.2⟩
    by_cases hk : row.orgId = sid2 ∧ sem = sem2
    · rcases hk with ⟨hk1, hk2⟩
      subst hk1
      subst hk2
      have hg : g0 = g := Option.some_inj.mp (hfind.symm.trans h)
      subst hg
      refine ⟨putUpdatedGrade now g0 (lectureUpdateGrade ou row g0), ?_, ?_, hvk.1, hvk.2⟩
      · refine findGradeRow_replaceFirst_found _ hfind ?_
        simp [gradeKeyMatches, hvk2.1, hvk2.2]
      · have hs := putUpdatedGrade_key_labSide_lectureSide now g0 (lectureUpdateGrade ou row g0)
        exact hs.2.2.2.trans (labSideOf_lectureUpdate ou row g0)
    · refine ⟨g, ?_, rfl, rfl, rfl⟩
      rw [findGradeRow_replaceFirst_ne row.orgId sem _ hk hvk2]
      exact h

/-- Lifting the lab frame lemma over a whole table of rows. -/
theorem foldl_upsertLabGrade_frame (ou sem : String) (now : ℕ) :
    ∀ (rows : List LabRow) (gs : List StudentGrade) {sid2 sem2 : String}
      {g : StudentGrade}, findGradeRow gs sid2 sem2 = some g →
      ∃ g', findGradeRow
          (rows.foldl (fun acc row => upsertLabGrade ou sem now acc row) gs) sid2 sem2 =
          some g' ∧
        lectureSideOf g' = lectureSideOf g ∧
        g'.student_id = g.student_id ∧ g'.semester = g.semester := by
  intro rows
  induction rows with
  | nil =>
    intro gs sid2 sem2 g h
    exact ⟨g, h, rfl, rfl, rfl⟩
  | cons r rs ih =>
    intro gs sid2 sem2 g h
    obtain ⟨g1, h1, hside1, hsid1, hsem1⟩ := upsertLabGrade_frame ou sem now gs r h
    obtain ⟨g2, h2, hside2, hsid2, hsem2⟩ := ih _ h1
    exact ⟨g2, h2, hside2.trans hside1, hsid2.trans hsid1, hsem2.trans hsem1⟩

/-- Lifting the lecture frame lemma over a whole table of rows. -/
theorem foldl_upsertLectureGrade_frame (ou sem : String) (now : ℕ) :
    ∀ (rows : List LectureRow) (gs : List StudentGrade) {sid2 sem2 : String}
      {g : StudentGrade}, findGradeRow gs sid2 sem2 = some g →
      ∃ g', findGradeRow
          (rows.foldl (fun acc row => upsertLectureGrade ou sem now acc row) gs) sid2 sem2 =
          some g' ∧
        labSideOf g' = labSideOf g ∧
        g'.student_id = g.student_id ∧ g'.semester = g.semester := by
  intro rows
  induction rows with
  | nil =>
    intro gs sid2 sem2 g h
    exact ⟨g, h, rfl, rfl, rfl⟩
  | cons r rs ih =>
    intro gs sid2 sem2 g h
    obtain ⟨g1, h1, hside1, hsid1, hsem1⟩ := upsertLectureGrade_frame ou sem now gs r h
    obtain ⟨g2, h2, hside2, hsid2, hsem2⟩ := ih _ h1
    exact ⟨g2, h2, hside2.trans hside1, hsid2.trans hsid1, hsem2.trans hsem1⟩

/-- Folding the per-row lab save only threads the grades table through the
grade upserts. -/
theorem foldl_saveLabRow_grades (ou sem : String) (now : ℕ) :
    ∀ (rows : List LabRow) (st : DBState),
      (rows.foldl (saveLabRow ou sem now) st).grades =
        rows.foldl (fun acc row => upsertLabGrade ou sem now acc row) st.grades := by
  intro rows
  induction rows with
  | nil =>
    intro st
    rfl
  | cons r rs ih =>
    intro st
    rw [List.foldl_cons, List.foldl_cons, ih]
    rfl

theorem foldl_saveLectureRow_grades (ou sem : String) (now : ℕ) :
    ∀ (rows : List LectureRow) (st : DBState),
      (rows.foldl (saveLectureRow ou sem now) st).grades =
        rows.foldl (fun acc row => upsertLectureGrade ou sem now acc row) st.grades := by
  intro rows
  induction rows with
  | nil =>
    intro st
    rfl
  | cons r rs ih =>
    intro st
    rw [List.foldl_cons, List.foldl_cons, ih]
    rfl

/-- The grades table of a saved lab table, computed at the list level
(the course get-or-create does not touch grades). -/
theorem saveLabTable_grades (ou cname sect sem : String) (now : ℕ) (st : DBState)
    (rows : List LabRow) :
    (saveLabTable ou cname sect sem now st rows).grades =
      rows.foldl (fun acc row => upsertLabGrade ou sem now acc row) st.grades :=
  foldl_saveLabRow_grades ou sem now rows _

/-- The grades table of a saved lecture table, computed at the list level. -/
theorem saveLectureTable_grades (ou cname sect sem : String) (now : ℕ) (st : DBState)
    (rows : List LectureRow) :
    (saveLectureTable ou cname sect sem now st rows).grades =
      rows.foldl (fun acc row => upsertLectureGrade ou sem now acc row) st.grades :=
  foldl_saveLectureRow_grades ou sem now rows _

/-! ### C7: a run writes only its own side of each CurrentGrade row -/

/-- C7: a lab-ingestion run leaves, for every grade row existing before the
run, the lecture-side fields and the key exactly as last written (only
lab fields, the derived overall grades and the timestamp may change),
and a lecture-ingestion run symmetrically leaves the lab-side fields —
including the final-project score — and the key untouched. -/
theorem c7_side_isolation :
    (∀ (ou cname sect sem : String) (now : ℕ) (st : DBState) (rows : List LabRow)
      (sid2 sem2 : String) (g : StudentGrade),
      findGradeRow st.grades sid2 sem2 = some g →
      ∃ g', findGradeRow (saveLabTable ou cname sect sem now st rows).grades sid2 sem2 =
          some g' ∧
        lectureSideOf g' = lectureSideOf g ∧
        g'.student_id = g.student_id ∧ g'.semester = g.semester) ∧
    (∀ (ou cname sect sem : String) (now : ℕ) (st : DBState) (rows : List LectureRow)
      (sid2 sem2 : String) (g : StudentGrade),
      findGradeRow st.grades sid2 sem2 = some g →
      ∃ g', findGradeRow (saveLectureTable ou cname sect sem now st rows).grades sid2 sem2 =
          some g' ∧
        labSideOf g' = labSideOf g ∧
        g'.student_id = g.student_id ∧ g'.semester = g.semester) := by
  constructor
  · intro ou cname sect sem now st rows sid2 sem2 g h
    rw [saveLabTable_grades]
    exact foldl_upsertLabGrade_frame ou sem now rows st.grades h
  · intro ou cname sect sem now st rows sid2 sem2 g h
    rw [saveLectureTable_grades]
    exact foldl_upsertLectureGrade_frame ou sem now rows st.grades h

/-- C7 witness: ingesting one lab row and one lecture row for the student
of `demoGrade` preserves the respective opposite side. -/
theorem c7_side_isolation_witness :
    (∃ g', findGradeRow (saveLabTable "10331755" "CSCI-1150" "001" "202580" 7 demoDB
        [demoLabRow]).grades "E001" "202580" = some g' ∧
      lectureSideOf g' = lectureSideOf demoGrade ∧
      g'.student_id = demoGrade.student_id ∧ g'.semester = demoGrade.semester) ∧
    (∃ g', findGradeRow (saveLectureTable "10219691" "CSCI-1100" "001" "202580" 7 demoDB
        [demoLectureRow]).grades "E001" "202580" = some g' ∧
      labSideOf g' = labSideOf demoGrade ∧
      g'.student_id = demoGrade.student_id ∧ g'.semester = demoGrade.semester) :=
  ⟨c7_side_isolation.1 "10331755" "CSCI-1150" "001" "202580" 7 demoDB [demoLabRow]
      "E001" "202580" demoGrade rfl,
   c7_side_isolation.2 "10219691" "CSCI-1100" "001" "202580" 7 demoDB [demoLectureRow]
      "E001" "202580" demoGrade rfl⟩

/-! ### Lemmas on the students and courses tables (towards C6) -/

theorem upsertStudentRow_present_self (ss : List Student) (s : Student) :
    presentStudent (upsertStudentRow ss s) s.org_defined_id := by
  unfold upsertStudentRow
  cases h : findStudentRow ss s.org_defined_id with
  | some s0 => simp [presentStudent, h]
  | none =>
    unfold findStudentRow at h
    unfold presentStudent findStudentRow
    rw [List.find?_append, h]
    simp

theorem upsertStudentRow_present_mono (ss : List Student) (s : Student) (oid : String)
    (h : presentStudent ss oid) : presentStudent (upsertStudentRow ss s) oid := by
  unfold upsertStudentRow
  cases hf : findStudentRow ss s.org_defined_id with
  | some s0 => exact h
  | none =>
    unfold presentStudent findStudentRow at h ⊢
    rw [List.find?_append]
    cases hx : List.find? (fun x => x.org_defined_id == oid) ss with
    | some s0 => simp
    | none => rw [hx] at h; simp at h

theorem upsertStudentRow_of_present (ss : List Student) (s : Student)
    (h : presentStudent ss s.org_defined_id) : upsertStudentRow ss s = ss := by
  unfold upsertStudentRow
  cases hf : findStudentRow ss s.org_defined_id with
  | some s0 => rfl
  | none =>
    unfold presentStudent at h
    rw [hf] at h
    simp at h

theorem findCourseRow_upsert_self (cs : List Course) (c : Course) :
    (findCourseRow (upsertCourseRow cs c) c.ou).isSome = true := by
  unfold upsertCourseRow
  cases h : findCourseRow cs c.ou with
  | some c0 => simp [h]
  | none =>
    unfold findCourseRow at h
    unfold findCourseRow
    rw [List.find?_append, h]
    simp

theorem upsertCourseRow_of_found (cs : List Course) (c : Course)
    (h : (findCourseRow cs c.ou).isSome = true) : upsertCourseRow cs c = cs := by
  unfold upsertCourseRow
  cases hf : findCourseRow cs c.ou with
  | some c0 => rfl
  | none => rw [hf] at h; simp at h

/-! ### Projection lemmas for folded saves -/

theorem foldl_saveLabRow_students (ou sem : String) (now : ℕ) :
    ∀ (rows : List LabRow) (st : DBState),
      (rows.foldl (saveLabRow ou sem now) st).students =
        rows.foldl (fun ss r => upsertStudentRow ss (mkStudentFromLab r)) st.students := by
  intro rows
  induction rows with
  | nil =>
    intro st
    rfl
  | cons r rs ih =>
    intro st
    rw [List.foldl_cons, List.foldl_cons, ih]
    rfl

theorem foldl_saveLabRow_courses (ou sem : String) (now : ℕ) :
    ∀ (rows : List LabRow) (st : DBState),
      (rows.foldl (saveLabRow ou sem now) st).courses = st.courses := by
  intro rows
  induction rows with
  | nil =>
    intro st
    rfl
  | cons r rs ih =>
    intro st
    rw [List.foldl_cons, ih]
    rfl

theorem foldl_saveLabRow_snapshots (ou sem : String) (now : ℕ) :
    ∀ (rows : List LabRow) (st : DBState),
      (rows.foldl (saveLabRow ou sem now) st).snapshots =
        st.snapshots ++ rows.map (mkLabSnapshot ou now) := by
  intro rows
  induction rows with
  | nil =>
    intro st
    simp
  | cons r rs ih =>
    intro st
    rw [List.foldl_cons, ih, List.map_cons]
    show st.snapshots ++ [mkLabSnapshot ou now r] ++ rs.map (mkLabSnapshot ou now) = _
    rw [List.append_assoc]
    rfl

theorem saveLabTable_students (ou cname sect sem : String) (now : ℕ) (st : DBState)
    (rows : List LabRow) :
    (saveLabTable ou cname sect sem now st rows).students =
      rows.foldl (fun ss r => upsertStudentRow ss (mkStudentFromLab r)) st.students :=
  foldl_saveLabRow_students ou sem now rows _

theorem saveLabTable_courses (ou cname sect sem : String) (now : ℕ) (st : DBState)
    (rows : List LabRow) :
    (saveLabTable ou cname sect sem now st rows).courses =
      upsertCourseRow st.courses (mkLabCourse ou cname sect sem) :=
  foldl_saveLabRow_courses ou sem now rows _

theorem saveLabTable_snapshots (ou cname sect sem : String) (now : ℕ) (st : DBState)
    (rows : List LabRow) :
    (saveLabTable ou cname sect sem now st rows).snapshots =
      st.snapshots ++ rows.map (mkLabSnapshot ou now) :=
  foldl_saveLabRow_snapshots ou sem now rows _

/-! ### Students of a saved table: presence and second-run no-ops -/

theorem present_foldl_mono (ss : List Student) (oid : String) :
    ∀ (rows : List LabRow), presentStudent ss oid →
      presentStudent
        (rows.foldl (fun ss r => upsertStudentRow ss (mkStudentFromLab r)) ss) oid := by
  intro rows
  induction rows generalizing ss with
  | nil => exact fun h => h
  | cons r rs ih =>
    intro h
    rw [List.foldl_cons]
    exact ih _ (upsertStudentRow_present_mono ss _ oid h)

theorem all_present_after :
    ∀ (rows : List LabRow) (ss : List Student), ∀ r ∈ rows,
      presentStudent
        (rows.foldl (fun ss r => upsertStudentRow ss (mkStudentFromLab r)) ss) r.orgId := by
  intro rows
  induction rows with
  | nil =>
    intro ss r hr
    simp at hr
  | cons x xs ih =>
    intro ss r hr
    rw [List.foldl_cons]
    rcases List.mem_cons.mp hr with h | h
    · subst h
      exact present_foldl_mono _ r.orgId xs (upsertStudentRow_present_self ss _)
    · exact ih _ r h

theorem foldl_noop_students :
    ∀ (rows : List LabRow) (ss : List Student),
      (∀ r ∈ rows, presentStudent ss r.orgId) →
      rows.foldl (fun ss r => upsertStudentRow ss (mkStudentFromLab r)) ss = ss := by
  intro rows
  induction rows with
  | nil =>
    intro ss _
    rfl
  | cons r rs ih =>
    intro ss hall
    rw [List.foldl_cons, upsertStudentRow_of_present ss _ (hall r (List.mem_cons_self r rs))]
    exact ih ss fun x hx => hall x (List.mem_cons_of_mem r hx)

/-! ### Fixed grade rows: a second identical lab write is absorbed -/

theorem upsertLabGrade_fixed_self (ou sem : String) (now : ℕ) (gs : List StudentGrade)
    (row : LabRow) : labFixedRow ou sem (upsertLabGrade ou sem now gs row) row := by
  unfold upsertLabGrade labFixedRow
  cases hfind : findGradeRow gs row.orgId sem with
  | some g =>
    have hg0k := key_of_found hfind
    have hvk := putLab_key ou row now g
    refine ⟨putUpdatedGrade now g (labUpdateGrade ou row g), ?_, labUpdate_putUpdated_fix ou row now g⟩
    refine findGradeRow_replaceFirst_found _ hfind ?_
    simp [gradeKeyMatches, hvk.1.trans hg0k.1, hvk.2.trans hg0k.2]
  | none =>
    refine ⟨applyInsertDefaults (labUpdateGrade ou row (newStudentGrade row.orgId sem now)), ?_, ?_⟩
    · rw [findGradeRow_append_none hfind]
      refine findGradeRow_cons_pos [] ?_
      have h1 : (applyInsertDefaults (labUpdateGrade ou row
          (newStudentGrade row.orgId sem now))).student_id = row.orgId := rfl
      have h2 : (applyInsertDefaults (labUpdateGrade ou row
          (newStudentGrade row.orgId sem now))).semester = sem := rfl
      simp [gradeKeyMatches, h1, h2]
    · rw [applyInsertDefaults_labUpdate, labUpdateGrade_idem]

theorem labFixedRow_upsert_other (ou sem : String) (now : ℕ) (gs : List StudentGrade)
    (row row' : LabRow) (hfix : labFixedRow ou sem gs row)
    (hne : row'.orgId ≠ row.orgId) :
    labFixedRow ou sem (upsertLabGrade ou sem now gs row') row := by
  obtain ⟨g, hfind, hfp⟩ := hfix
  unfold upsertLabGrade
  cases hfind' : findGradeRow gs row'.orgId sem with
  | none => exact ⟨g, findGradeRow_append_some hfind _, hfp⟩
  | some g0 =>
    have hg0k := key_of_found hfind'
    have hvk := putLab_key ou row' now g0
    refine ⟨g, ?_, hfp⟩
    rw [findGradeRow_replaceFirst_ne row'.orgId sem _ (fun hc => hne hc.1)
      ⟨hvk.1.trans hg0k.1, hvk.2.trans hg0k.2⟩]
    exact hfind

theorem labFixedRow_foldl_pres (ou sem : String) (now : ℕ) :
    ∀ (rows : List LabRow) (gs : List StudentGrade) (row : LabRow),
      labFixedRow ou sem gs row → row.orgId ∉ rows.map LabRow.orgId →
      labFixedRow ou sem
        (rows.foldl (fun acc r => upsertLabGrade ou sem now acc r) gs) row := by
  intro rows
  induction rows with
  | nil =>
    intro gs row hfix _
    exact hfix
  | cons r rs ih =>
    intro gs row hfix hnot
    rw [List.map_cons, List.mem_cons] at hnot
    push_neg at hnot
    rw [List.foldl_cons]
    exact ih _ row (labFixedRow_upsert_other ou sem now gs row r hfix (fun h => hnot.1 h.symm))
      hnot.2

theorem labFixedRow_all_after (ou sem : String) (now : ℕ) :
    ∀ (rows : List LabRow) (gs : List StudentGrade),
      (rows.map LabRow.orgId).Nodup → ∀ row ∈ rows,
      labFixedRow ou sem
        (rows.foldl (fun acc r => upsertLabGrade ou sem now acc r) gs) row := by
  intro rows
  induction rows with
  | nil =>
    intro gs _ row hrow
    simp at hrow
  | cons r rs ih =>
    intro gs hnd row hrow
    rw [List.map_cons, List.nodup_cons] at hnd
    rw [List.foldl_cons]
    rcases List.mem_cons.mp hrow with h | h
    · subst h
      exact labFixedRow_foldl_pres ou sem now rs _ row
        (upsertLabGrade_fixed_self ou sem now gs row) hnd.1
    · exact ih _ hnd.2 row h

theorem upsertLabGrade_fixed_noop (ou sem : String) (now : ℕ) (gs : List StudentGrade)
    (row : LabRow) (hfix : labFixedRow ou sem gs row) :
    upsertLabGrade ou sem now gs row = gs := by
  obtain ⟨g, hfind, hfp⟩ := hfix
  unfold upsertLabGrade
  rw [hfind]
  show replaceFirstGrade gs row.orgId sem (putUpdatedGrade now g (labUpdateGrade ou row g)) = gs
  rw [hfp]
  have hput : putUpdatedGrade now g g = g := by
    unfold putUpdatedGrade
    simp
  rw [hput]
  exact replaceFirstGrade_self hfind

theorem foldl_upsertLabGrade_noop (ou sem : String) (now : ℕ) :
    ∀ (rows : List LabRow) (gs : List StudentGrade),
      (∀ row ∈ rows, labFixedRow ou sem gs row) →
      rows.foldl (fun acc r => upsertLabGrade ou sem now acc r) gs = gs := by
  intro rows
  induction rows with
  | nil =>
    intro gs _
    rfl
  | cons r rs ih =>
    intro gs hall
    rw [List.foldl_cons, upsertLabGrade_fixed_noop ou sem now gs r (hall r (List.mem_cons_self r rs))]
    exact ih gs fun x hx => hall x (List.mem_cons_of_mem r hx)

/-! ### C6: re-ingesting an identical lab table is idempotent -/

/-- C6: saving the same aggregated lab table twice for the same Section
(with per-student rows, as exported tables have) leaves the students,
courses and grades tables of the second run exactly as after the first
run — no duplicate Student or Section rows, every CurrentGrade row a
stable fixed point (including its `last_updated`, since writing equal
values emits no UPDATE) — while the snapshots table grows by exactly one
row per table row. -/
theorem c6_reingestion_idempotent (ou cname sect sem : String) (now1 now2 : ℕ)
    (st : DBState) (rows : List LabRow)
    (hnd : (rows.map LabRow.orgId).Nodup) :
    (saveLabTable ou cname sect sem now2
        (saveLabTable ou cname sect sem now1 st rows) rows).students =
      (saveLabTable ou cname sect sem now1 st rows).students ∧
    (saveLabTable ou cname sect sem now2
        (saveLabTable ou cname sect sem now1 st rows) rows).courses =
      (saveLabTable ou cname sect sem now1 st rows).courses ∧
    (saveLabTable ou cname sect sem now2
        (saveLabTable ou cname sect sem now1 st rows) rows).grades =
      (saveLabTable ou cname sect sem now1 st rows).grades ∧
    (saveLabTable ou cname sect sem now2
        (saveLabTable ou cname sect sem now1 st rows) rows).snapshots.length =
      (saveLabTable ou cname sect sem now1 st rows).snapshots.length + rows.length := by
  refine ⟨?_, ?_, ?_, ?_⟩
  · rw [saveLabTable_students, saveLabTable_students]
    refine foldl_noop_students rows _ ?_
    intro r hr
    exact all_present_after rows st.students r hr
  · rw [saveLabTable_courses, saveLabTable_courses]
    refine upsertCourseRow_of_found _ _ ?_
    exact findCourseRow_upsert_self st.courses (mkLabCourse ou cname sect sem)
  · rw [saveLabTable_grades, saveLabTable_grades]
    refine foldl_upsertLabGrade_noop ou sem now2 rows _ ?_
    intro r hr
    exact labFixedRow_all_after ou sem now1 rows st.grades hnd r hr
  · rw [saveLabTable_snapshots, saveLabTable_snapshots]
    simp
    omega

/-- C6 witness: re-saving the single-row demo lab table over the empty
database changes nothing but the snapshot count. -/
theorem c6_reingestion_idempotent_witness :
    (saveLabTable "10331755" "CSCI-1150" "001" "202580" 1
        (saveLabTable "10331755" "CSCI-1150" "001" "202580" 0 emptyDB [demoLabRow])
        [demoLabRow]).students =
      (saveLabTable "10331755" "CSCI-1150" "001" "202580" 0 emptyDB [demoLabRow]).students ∧
    (saveLabTable "10331755" "CSCI-1150" "001" "202580" 1
        (saveLabTable "10331755" "CSCI-1150" "001" "202580" 0 emptyDB [demoLabRow])
        [demoLabRow]).courses =
      (saveLabTable "10331755" "CSCI-1150" "001" "202580" 0 emptyDB [demoLabRow]).courses ∧
    (saveLabTable "10331755" "CSCI-1150" "001" "202580" 1
        (saveLabTable "10331755" "CSCI-1150" "001" "202580" 0 emptyDB [demoLabRow])
        [demoLabRow]).grades =
      (saveLabTable "10331755" "CSCI-1150" "001" "202580" 0 emptyDB [demoLabRow]).grades ∧
    (saveLabTable "10331755" "CSCI-1150" "001" "202580" 1
        (saveLabTable "10331755" "CSCI-1150" "001" "202580" 0 emptyDB [demoLabRow])
        [demoLabRow]).snapshots.length =
      (saveLabTable "10331755" "CSCI-1150" "001" "202580" 0 emptyDB
        [demoLabRow]).snapshots.length + 1 :=
  c6_reingestion_idempotent "10331755" "CSCI-1150" "001" "202580" 0 1 emptyDB
    [demoLabRow] (by simp)

end BatchGrades
